import Mathlib

/-
Verification of the octoprint-api-py client (src/octoprint-api-py/client.py)
against its specification.  The Python module is shallowly embedded: each
client method is translated into a pure Lean function that either raises a
Python-style exception or hands a fully formed request descriptor to the
shared dispatch routine `_make_request`, which is embedded separately
together with the attribute table that `__init__` actually populates.
Python floats appearing in the feedrate and flowrate factors are modelled
as exact rationals; the constants involved (100, 2.0, 0.5, 1.25, 0.75) are
exactly representable, so the comparisons performed by the source coincide
with the rational ones.
-/

namespace Octoprint

/-- Python runtime values as used by this client: ints, floats (modelled as
rationals), booleans, strings, None, lists, and dicts with string keys. -/
inductive Py where
  | int (n : Int)
  | float (q : ℚ)
  | bool (b : Bool)
  | str (s : String)
  | none
  | list (xs : List Py)
  | dict (fields : List (String × Py))

/-- The result of the builtin `type(...)` on an embedded value, by name. -/
def Py.typeName : Py → String
  | .int _ => "int"
  | .float _ => "float"
  | .bool _ => "bool"
  | .str _ => "str"
  | .none => "NoneType"
  | .list _ => "list"
  | .dict _ => "dict"

/-- Python exceptions raised by the client module. -/
inductive PyErr where
  | valueError (msg : String)
  | typeError (msg : String)
  | attributeError (name : String)
  | nameError (name : String)
  | httpError (status : Nat)

/-- The keyword arguments the client methods forward to `_make_request`:
`params`, `json`, `files` (multipart parts given as filename/content pairs)
and `headers`. -/
structure Kwargs where
  params : Option (List (String × Py)) := Option.none
  json : Option Py := Option.none
  files : Option (List (String × (Py × Py))) := Option.none
  headers : Option (List (String × Py)) := Option.none

/-- What a client method does up to the shared dispatch routine: either it
raises locally (validation), or it invokes `_make_request` with an endpoint,
an HTTP method string and keyword arguments. -/
inductive Outcome where
  | raised (e : PyErr)
  | dispatched (endpoint : String) (method : String) (kwargs : Kwargs)

/-- A request as it would be handed to `requests.request`. -/
structure HttpRequest where
  method : String
  url : String
  headers : List (String × Py)
  kwargs : Kwargs

/-- A server response: status code plus parsed JSON body. -/
structure HttpResponse where
  status : Nat
  body : Py

/-- The client object.  `__init__` stores the constructor arguments in the
fields `_api_key` and `_base_url`. -/
structure Client where
  _api_key : Option String
  _base_url : String

/-- Convert an optional Python string argument to its runtime value. -/
def pyStrOpt : Option String → Py
  | Option.none => Py.none
  | some s => Py.str s

/-- Attribute lookup on a client instance.  `__init__` assigns exactly the
attributes `_api_key` and `_base_url`; looking up any other name (such as
`api_key` or `url`, which `_make_request` reads) fails. -/
def Client.getattr (c : Client) (name : String) : Option Py :=
  if name = "_api_key" then some (pyStrOpt c._api_key)
  else if name = "_base_url" then some (Py.str c._base_url)
  else Option.none

/-- Names imported at the top of client.py.  Only `requests` is imported;
in particular `urllib` is not, although line 26 uses it. -/
def moduleImports : List String := ["requests"]

/-- Python dict assignment `d[k] = v` on a string-keyed dict: replaces the
value of an existing key in place, otherwise appends the new entry. -/
def dictSet (d : List (String × Py)) (k : String) (v : Py) : List (String × Py) :=
  if (d.map Prod.fst).contains k then
    d.map (fun p => if p.1 = k then (k, v) else p)
  else d ++ [(k, v)]

/-- Python str.startswith, computed on the character lists of the two
strings (byte-level String primitives do not reduce in the kernel). -/
def strStartsWith (s pre : String) : Bool := pre.data.isPrefixOf s.data

/-- First value bound to a key in a string-keyed dict, if any. -/
def dictGet : List (String × Py) → String → Option Py
  | [], _ => Option.none
  | (k, v) :: rest, key => if k = key then some v else dictGet rest key

/-- Extract the underlying string of a Python string value. -/
def pyStr : Py → String
  | .str s => s
  | _ => ""

/-- Embedding of `Client._make_request` (client.py lines 14-29).  Both
branches of the headers merge evaluate `self.api_key`, an attribute that is
never assigned, and line 26 resolves the module-level name `urllib`, which
is never imported; `requests.request` (modelled by `server`) sits behind
both.  The result pairs the list of HTTP requests actually issued with the
returned response or the exception raised.  URL joining is modelled as
concatenation; it is unreachable because the `urllib` lookup fails first. -/
def Client.makeRequest (c : Client) (endpoint : String) (method : String)
    (kwargs : Kwargs) (server : HttpRequest → HttpResponse) :
    List HttpRequest × Except PyErr HttpResponse :=
  let headersMerged : Except PyErr (List (String × Py)) :=
    match kwargs.headers with
    | some hs =>
        match c.getattr "api_key" with
        | some key => Except.ok (dictSet hs "X-Api-Key" key)
        | Option.none => Except.error (PyErr.attributeError "api_key")
    | Option.none =>
        match c.getattr "api_key" with
        | some key => Except.ok [("X-Api-Key", key)]
        | Option.none => Except.error (PyErr.attributeError "api_key")
  match headersMerged with
  | Except.error e => ([], Except.error e)
  | Except.ok headers =>
      if moduleImports.contains "urllib" then
        match c.getattr "url" with
        | Option.none => ([], Except.error (PyErr.attributeError "url"))
        | some baseUrl =>
            let req : HttpRequest :=
              { method := method, url := pyStr baseUrl ++ endpoint,
                headers := headers, kwargs := { kwargs with headers := Option.none } }
            let resp := server req
            if 200 ≤ resp.status ∧ resp.status < 300 then ([req], Except.ok resp)
            else ([req], Except.error (PyErr.httpError resp.status))
      else ([], Except.error (PyErr.nameError "urllib"))

/-- Run a method outcome against a client and a server: a locally raised
exception issues no request; a dispatch hands over to `_make_request`. -/
def run (c : Client) (o : Outcome) (server : HttpRequest → HttpResponse) :
    List HttpRequest × Except PyErr HttpResponse :=
  match o with
  | Outcome.raised e => ([], Except.error e)
  | Outcome.dispatched endpoint method kwargs => c.makeRequest endpoint method kwargs server

/- Exception messages from the source, with the single quotes around the
interpolated or quoted fragments dropped (the surrounding text is kept
verbatim). -/

def filesLocationMsg : String := "`location` argument must be one of [local, sdcard]"

def uploadLocationMsg : String := "`location` path must be either local or sdcard"

def foldernameMsg : String := "invalid foldername"

def pathPrefixMsg : String := "`path` must begin with local/ or sdcard/"

def historyMsg : String := "`history` must be positive int or zero"

def jogMsg : String := "no `x`, `y`, or `z` argument was provided"

def homeMsg : String := "one of `x`, `y`, or `z` must be `True`"

def feedrateMsg : String := "`factor` must be between [0.5, 2.0] or [50, 200]."

def flowrateMsg : String := "`factor` must be between [0.75, 1.25] or [75, 125]."

def tempMsg : String := "`temp` must be either an integer or list object"

def bedTargetMsg : String := "`target` must be zero or positive"

/-- Python `if v: data[k] = v` for an optional int argument: `None` and `0`
are falsy, so they add nothing; any other int is appended under `k`. -/
def truthyIntEntry (k : String) : Option Int → List (String × Py)
  | Option.none => []
  | some n => if n = 0 then [] else [(k, Py.int n)]

/-- Python `if v: data[k] = v` for an optional string argument: `None` and
the empty string are falsy. -/
def truthyStrEntry (k : String) : Option String → List (String × Py)
  | Option.none => []
  | some s => if s = "" then [] else [(k, Py.str s)]

/-- `version` (lines 31-39): GET /api/version. -/
def Client.version : Outcome :=
  Outcome.dispatched "/api/version" "GET" {}

/-- `server` (lines 41-49): GET /api/server. -/
def Client.server : Outcome :=
  Outcome.dispatched "/api/server" "GET" {}

/-- `connect_settings` (lines 51-59): the source requests "/api/server",
although its own docstring documents the endpoint as "/api/connection". -/
def Client.connect_settings : Outcome :=
  Outcome.dispatched "/api/server" "GET" {}

/-- `files` (lines 119-147): builds the query params, validates `location`
against [local, sdcard], then GETs /api/files/{location}. -/
def Client.files (override_cache recursive : Bool) (location : String) : Outcome :=
  let params : List (String × Py) :=
    [("force", Py.bool override_cache), ("recursive", Py.bool recursive)]
  if location ∉ ["local", "sdcard"] then
    Outcome.raised (PyErr.valueError filesLocationMsg)
  else
    Outcome.dispatched ("/api/files" ++ "/" ++ location) "GET" { params := some params }

/-- `file_upload` (lines 149-175): validates `location`, then POSTs a
multipart form with parts `files` (filename, file) and `path`. -/
def Client.file_upload (filename : String) (file : Py) (path : String)
    (location : String) : Outcome :=
  if location ∉ ["local", "sdcard"] then
    Outcome.raised (PyErr.valueError uploadLocationMsg)
  else
    Outcome.dispatched ("/api/files/" ++ location) "POST"
      { files := some [("files", (Py.str filename, file)), ("path", (Py.none, Py.str path))] }

/-- `new_directory` (lines 177-197): rejects a missing or empty foldername,
then calls `_make_request` with the multipart parts `foldername` and
`path`.  The call passes no method argument, so `_make_request` uses its
default "GET", although the docstring documents the method as POST. -/
def Client.new_directory (foldername : Option String) (path : Option String) : Outcome :=
  if foldername = Option.none ∨ foldername = some "" then
    Outcome.raised (PyErr.valueError foldernameMsg)
  else
    Outcome.dispatched "/api/files/local" "GET"
      { files := some [("foldername", (Py.none, pyStrOpt foldername)),
                       ("path", (Py.none, pyStrOpt path))] }

/-- `file_retrieve` (lines 199-213): validates the path starts with local/
or sdcard/, then GETs /api/files/{path} with the recursive query param. -/
def Client.file_retrieve (path : String) (recursive : Bool) : Outcome :=
  if ¬ strStartsWith path "local/" ∧ ¬ strStartsWith path "sdcard/" then
    Outcome.raised (PyErr.valueError pathPrefixMsg)
  else
    Outcome.dispatched ("/api/files/" ++ path) "GET"
      { params := some [("recursive", Py.bool recursive)] }

/-- `file_select` (lines 215-236): path validation, then POST with the
select command in the query params. -/
def Client.file_select (path : String) (print_now : Bool) : Outcome :=
  if ¬ strStartsWith path "local/" ∧ ¬ strStartsWith path "sdcard/" then
    Outcome.raised (PyErr.valueError pathPrefixMsg)
  else
    Outcome.dispatched ("/api/files/" ++ path) "POST"
      { params := some [("command", Py.str "select"), ("print", Py.bool print_now)] }

/-- `file_slice` (lines 254-298): path validation, then POST of the slice
command body. -/
def Client.file_slice (path filename : String) (position_x position_y : Int)
    (printerProfile profile : Option String) (select print_now : Bool)
    (slicer : String) : Outcome :=
  if ¬ strStartsWith path "local/" ∧ ¬ strStartsWith path "sdcard/" then
    Outcome.raised (PyErr.valueError pathPrefixMsg)
  else
    Outcome.dispatched ("/api/files/" ++ path) "POST"
      { json := some (Py.dict
          [("command", Py.str "slice"), ("gcode", Py.str filename),
           ("position", Py.dict [("x", Py.int position_x), ("y", Py.int position_y)]),
           ("printerProfile", pyStrOpt printerProfile), ("profile", pyStrOpt profile),
           ("select", Py.bool select), ("print", Py.bool print_now),
           ("slicer", Py.str slicer)]) }

/-- `file_delete` (lines 300-312): path validation, then DELETE. -/
def Client.file_delete (path : String) : Outcome :=
  if ¬ strStartsWith path "local/" ∧ ¬ strStartsWith path "sdcard/" then
    Outcome.raised (PyErr.valueError pathPrefixMsg)
  else
    Outcome.dispatched ("/api/files/" ++ path) "DELETE" {}

/-- `job` (lines 377-385): GET /api/job. -/
def Client.job : Outcome :=
  Outcome.dispatched "/api/job" "GET" {}

/-- `printer` (lines 387-405): rejects a None or negative history, adds
`exclude` when truthy and `history`/`limit` when history is positive, then
GETs /api/printer. -/
def Client.printer (history : Option Int) (exclude : Option String) : Outcome :=
  match history with
  | Option.none => Outcome.raised (PyErr.valueError historyMsg)
  | some h =>
      if h < 0 then Outcome.raised (PyErr.valueError historyMsg)
      else
        let data := truthyStrEntry "exclude" exclude
        let data := data ++
          (if 0 < h then [("history", Py.bool true), ("limit", Py.int h)] else [])
        Outcome.dispatched "/api/printer" "GET" { params := some data }

/-- `printhead_jog` (lines 407-440): raises when x, y and z are all None;
otherwise builds the jog body, adding each of x, y, z, absolute and speed
only when truthy, and POSTs it. -/
def Client.printhead_jog (x y z : Option Int) (absolute : Bool)
    (speed : Option Int) : Outcome :=
  if x = Option.none ∧ y = Option.none ∧ z = Option.none then
    Outcome.raised (PyErr.typeError jogMsg)
  else
    let data := [("command", Py.str "jog")]
    let data := data ++ truthyIntEntry "x" x
    let data := data ++ truthyIntEntry "y" y
    let data := data ++ truthyIntEntry "z" z
    let data := data ++ (if absolute then [("absolute", Py.bool absolute)] else [])
    let data := data ++ truthyIntEntry "speed" speed
    Outcome.dispatched "/api/printer/printhead" "POST" { json := some (Py.dict data) }

/-- `printhead_home` (lines 442-460): raises when no axis is true, then
POSTs the home command with the list of selected axes. -/
def Client.printhead_home (x y z : Bool) : Outcome :=
  if x = false ∧ y = false ∧ z = false then
    Outcome.raised (PyErr.typeError homeMsg)
  else
    let axes := (if x then [Py.str "x"] else []) ++
      (if y then [Py.str "y"] else []) ++ (if z then [Py.str "z"] else [])
    Outcome.dispatched "/api/printer/printhead" "POST"
      { json := some (Py.dict [("command", Py.str "home"), ("axes", Py.list axes)]) }

/-- `printhead_feedrate` (lines 462-480): divides the factor by 100 when it
exceeds 2.0 (`round(100.0, 2)` in the source is exactly 100), raises when
the result is outside [0.5, 2.0], and otherwise POSTs the feedrate body. -/
def Client.printhead_feedrate (factor : ℚ) : Outcome :=
  let factor := if 2 < factor then factor / 100 else factor
  if 2 < factor ∨ factor < 1/2 then
    Outcome.raised (PyErr.valueError feedrateMsg)
  else
    Outcome.dispatched "/api/printer/printhead" "POST"
      { json := some (Py.dict [("command", Py.str "feedrate"), ("factor", Py.float factor)]) }

/-- `tool_target` (lines 482-503): type dispatch on `temp`.  An int becomes
targets.tool; a list is enumerated into toolN keys; any other runtime type
raises.  (`type(temp)` is an exact type test, so a bool also raises.) -/
def Client.tool_target (temp : Py) : Outcome :=
  match temp with
  | Py.int n =>
      Outcome.dispatched "/api/printer/tool" "POST"
        { json := some (Py.dict [("command", Py.str "target"),
                                 ("targets", Py.dict [("tool", Py.int n)])]) }
  | Py.list xs =>
      let targets := xs.enum.map (fun p => ("tool" ++ toString p.1, p.2))
      Outcome.dispatched "/api/printer/tool" "POST"
        { json := some (Py.dict [("command", Py.str "target"),
                                 ("targets", Py.dict targets)]) }
  | _ => Outcome.raised (PyErr.valueError tempMsg)

/-- `tool_flowrate` (lines 559-577): divides the factor by 100 when it
exceeds 1.25, raises when the result is outside [0.75, 1.25], and
otherwise POSTs the flowrate body. -/
def Client.tool_flowrate (factor : ℚ) : Outcome :=
  let factor := if 5/4 < factor then factor / 100 else factor
  if 5/4 < factor ∨ factor < 3/4 then
    Outcome.raised (PyErr.valueError flowrateMsg)
  else
    Outcome.dispatched "/api/printer/tool" "POST"
      { json := some (Py.dict [("command", Py.str "flowrate"), ("factor", Py.float factor)]) }

/-- `tool` (lines 579-598): rejects a None or negative history, then GETs
/api/printer/tool with optional history params. -/
def Client.tool (history : Option Int) : Outcome :=
  match history with
  | Option.none => Outcome.raised (PyErr.valueError historyMsg)
  | some h =>
      if h < 0 then Outcome.raised (PyErr.valueError historyMsg)
      else
        let data := if 0 < h then [("history", Py.bool true), ("limit", Py.int h)] else []
        Outcome.dispatched "/api/printer/tool" "GET" { params := some data }

/-- `bed_target` (lines 600-614): rejects a negative target, then calls
`_make_request` on the endpoint "/api/printer" with no method argument
(hence the default "GET"), although the docstring documents POST to
/api/printer/bed. -/
def Client.bed_target (target : Int) : Outcome :=
  if target < 0 then
    Outcome.raised (PyErr.valueError bedTargetMsg)
  else
    Outcome.dispatched "/api/printer" "GET"
      { json := some (Py.dict [("command", Py.str "target"), ("target", Py.int target)]) }

/-- `bed` (lines 629-648): rejects a None or negative history, then GETs
/api/printer/bed with optional history params. -/
def Client.bed (history : Option Int) : Outcome :=
  match history with
  | Option.none => Outcome.raised (PyErr.valueError historyMsg)
  | some h =>
      if h < 0 then Outcome.raised (PyErr.valueError historyMsg)
      else
        let data := if 0 < h then [("history", Py.bool true), ("limit", Py.int h)] else []
        Outcome.dispatched "/api/printer/bed" "GET" { params := some data }

/-- The normalization rule as the spec words it for the feedrate factor: a
factor above 2.0 is divided by 100, anything else is kept. -/
def normalizedFeedrate (f : ℚ) : ℚ := if 2 < f then f / 100 else f

/-- The normalization rule as the spec words it for the flowrate factor: a
factor above 1.25 is divided by 100, anything else is kept. -/
def normalizedFlowrate (f : ℚ) : ℚ := if 5/4 < f then f / 100 else f

/-- The value the amended C5 claim predicts for an axis field in the jog
body: present with its value when the argument is a nonzero int, absent
when the argument is None or 0. -/
def axisValue : Option Int → Option Py
  | Option.none => Option.none
  | some n => if n = 0 then Option.none else some (Py.int n)

/-- The key list the amended C5 claim predicts an axis contributes. -/
def axisKeys (k : String) : Option Int → List String
  | Option.none => []
  | some n => if n = 0 then [] else [k]

/-- The json field of a dispatched outcome whose body is a dict. -/
def Outcome.jsonField : Outcome → String → Option Py
  | Outcome.dispatched _ _ kw, k =>
      match kw.json with
      | some (Py.dict fields) => dictGet fields k
      | _ => Option.none
  | Outcome.raised _, _ => Option.none

/- Helper lemmas about dict lookup over the entry lists the jog body is
assembled from. -/

theorem dictGet_truthy_skip (k k' : String) (v : Option Int)
    (l : List (String × Py)) (h : k ≠ k') :
    dictGet (truthyIntEntry k v ++ l) k' = dictGet l k' := by
  cases v with
  | none => rfl
  | some n =>
      by_cases hn : n = 0
      · simp [truthyIntEntry, hn]
      · simp [truthyIntEntry, hn, dictGet, h]

theorem truthyIntEntry_none (k : String) : truthyIntEntry k Option.none = [] := rfl

theorem absoluteEntry_false :
    (if (false : Bool) = true then [("absolute", Py.bool false)] else [])
      = ([] : List (String × Py)) := rfl

theorem dictGet_cons_self (k : String) (v : Py) (l : List (String × Py)) :
    dictGet ((k, v) :: l) k = some v := by
  simp [dictGet]

theorem dictGet_cons_ne (k k' : String) (v : Py) (l : List (String × Py))
    (h : k ≠ k') : dictGet ((k, v) :: l) k' = dictGet l k' := by
  simp [dictGet, h]

theorem dictGet_truthy_ne (k k' : String) (v : Option Int) (h : k ≠ k') :
    dictGet (truthyIntEntry k v) k' = Option.none := by
  cases v with
  | none => rfl
  | some n =>
      by_cases hn : n = 0 <;> simp [truthyIntEntry, hn, dictGet, h]

theorem dictGet_truthy_self (k : String) (v : Option Int)
    (l : List (String × Py)) (hl : dictGet l k = Option.none) :
    dictGet (truthyIntEntry k v ++ l) k = axisValue v := by
  cases v with
  | none => simpa [truthyIntEntry, axisValue] using hl
  | some n =>
      by_cases hn : n = 0 <;> simp [truthyIntEntry, axisValue, hn, dictGet, hl]

theorem truthyIntEntry_keys (k : String) (v : Option Int) :
    (truthyIntEntry k v).map Prod.fst = axisKeys k v := by
  cases v with
  | none => rfl
  | some n => by_cases hn : n = 0 <;> simp [truthyIntEntry, axisKeys, hn]

/-- C1: every operation that reaches `_make_request`, whatever the endpoint,
method and keyword arguments, raises the AttributeError for the unassigned
attribute `api_key` (the first of the unresolved names `api_key`, `urllib`,
`url`) before `requests.request` is invoked; consequently no request is
issued and no client method can complete a network exchange. -/
theorem c1_dispatch_always_raises :
    (∀ (c : Client) (endpoint method : String) (kwargs : Kwargs)
        (server : HttpRequest → HttpResponse),
        c.makeRequest endpoint method kwargs server
          = ([], Except.error (PyErr.attributeError "api_key"))) ∧
    (∀ (c : Client) (o : Outcome) (server : HttpRequest → HttpResponse),
        (run c o server).1 = []) := by
  have hmk : ∀ (c : Client) (endpoint method : String) (kwargs : Kwargs)
      (server : HttpRequest → HttpResponse),
      c.makeRequest endpoint method kwargs server
        = ([], Except.error (PyErr.attributeError "api_key")) := by
    intro c endpoint method kwargs server
    rcases kwargs with ⟨p, j, f, hd⟩
    cases hd <;> rfl
  refine ⟨hmk, ?_⟩
  intro c o server
  cases o with
  | raised e => rfl
  | dispatched endpoint method kwargs =>
      show (c.makeRequest endpoint method kwargs server).1 = []
      rw [hmk]

/-- C2: with caller-supplied headers present, the dispatch routine raises
AttributeError for `api_key` while merging them (its docstring promises
`self._api_key`, but the code reads the unassigned `self.api_key`), so the
merged header map is never completed and no request carrying X-Api-Key is
ever sent. -/
theorem c2_header_merge_raises (c : Client) (endpoint method : String)
    (p : Option (List (String × Py))) (j : Option Py)
    (f : Option (List (String × (Py × Py)))) (hs : List (String × Py))
    (server : HttpRequest → HttpResponse) :
    c.makeRequest endpoint method
        { params := p, json := j, files := f, headers := some hs } server
      = ([], Except.error (PyErr.attributeError "api_key")) := rfl

/-- C3: no GET operation ever returns the parsed JSON body of a 200
response; for every client and every server, each of the nine GET
operations fails inside the dispatch routine with the AttributeError for
`api_key`, issuing no request (and the source would return the uninvoked
`resp.json` accessor even if dispatch worked). -/
theorem c3_get_roundtrip_fails (c : Client) (server : HttpRequest → HttpResponse) :
    run c Client.version server = ([], Except.error (PyErr.attributeError "api_key")) ∧
    run c Client.server server = ([], Except.error (PyErr.attributeError "api_key")) ∧
    run c Client.connect_settings server = ([], Except.error (PyErr.attributeError "api_key")) ∧
    run c (Client.files false false "local") server
      = ([], Except.error (PyErr.attributeError "api_key")) ∧
    run c (Client.file_retrieve "local/part.gcode" false) server
      = ([], Except.error (PyErr.attributeError "api_key")) ∧
    run c Client.job server = ([], Except.error (PyErr.attributeError "api_key")) ∧
    run c (Client.printer (some 0) Option.none) server
      = ([], Except.error (PyErr.attributeError "api_key")) ∧
    run c (Client.tool (some 0)) server
      = ([], Except.error (PyErr.attributeError "api_key")) ∧
    run c (Client.bed (some 0)) server
      = ([], Except.error (PyErr.attributeError "api_key")) := by
  refine ⟨rfl, rfl, rfl, rfl, rfl, rfl, rfl, rfl, rfl⟩

/-- C8: the create-directory operation rejects a missing or empty
foldername, and otherwise hands `_make_request` the endpoint
/api/files/local with the multipart parts foldername and path, but with
the default method "GET" (the source omits the method argument), not the
POST the claim and the docstring state. -/
theorem c8_new_directory_uses_get (path : Option String) :
    Client.new_directory Option.none path
      = Outcome.raised (PyErr.valueError foldernameMsg) ∧
    Client.new_directory (some "") path
      = Outcome.raised (PyErr.valueError foldernameMsg) ∧
    Client.new_directory (some "newdir") Option.none
      = Outcome.dispatched "/api/files/local" "GET"
          { files := some [("foldername", (Py.none, Py.str "newdir")),
                           ("path", (Py.none, Py.none))] } := by
  refine ⟨?_, ?_, ?_⟩ <;> rfl

/-- C9: the bed-target operation rejects a negative target, and otherwise
hands `_make_request` the endpoint "/api/printer" with the default method
"GET" and the documented JSON body, not the POST to /api/printer/bed the
claim and the docstring state. -/
theorem c9_bed_target_request :
    Client.bed_target (-1) = Outcome.raised (PyErr.valueError bedTargetMsg) ∧
    Client.bed_target 60 = Outcome.dispatched "/api/printer" "GET"
      { json := some (Py.dict [("command", Py.str "target"), ("target", Py.int 60)]) } :=
  ⟨rfl, rfl⟩

/-- C10: the connection-settings operation performs no validation and
dispatches exactly one GET, but to the endpoint "/api/server", not to
"/api/connection" as the claim and the docstring state. -/
theorem c10_connect_settings_endpoint :
    Client.connect_settings = Outcome.dispatched "/api/server" "GET" {} ∧
    Client.connect_settings ≠ Outcome.dispatched "/api/connection" "GET" {} := by
  refine ⟨rfl, ?_⟩
  intro h
  injection h with h1 h2 h3
  exact absurd h1 (by decide)

/-- C4: each documented validation rule raises its local exception (a
ValueError or, for jog and home, a TypeError — the two locally raised
validation kinds) before `_make_request` is invoked, i.e. the outcome is
`raised`, and a raised outcome issues no HTTP request. -/
theorem c4_validation_before_dispatch :
    (∀ (oc rec : Bool) (loc : String), loc ∉ ["local", "sdcard"] →
        Client.files oc rec loc = Outcome.raised (PyErr.valueError filesLocationMsg)) ∧
    (∀ (fn : String) (file : Py) (p loc : String), loc ∉ ["local", "sdcard"] →
        Client.file_upload fn file p loc
          = Outcome.raised (PyErr.valueError uploadLocationMsg)) ∧
    (∀ fn p : Option String, (fn = Option.none ∨ fn = some "") →
        Client.new_directory fn p = Outcome.raised (PyErr.valueError foldernameMsg)) ∧
    (∀ (h : Option Int) (ex : Option String),
        (h = Option.none ∨ ∃ n, h = some n ∧ n < 0) →
        Client.printer h ex = Outcome.raised (PyErr.valueError historyMsg)) ∧
    (∀ h : Option Int, (h = Option.none ∨ ∃ n, h = some n ∧ n < 0) →
        Client.tool h = Outcome.raised (PyErr.valueError historyMsg)) ∧
    (∀ h : Option Int, (h = Option.none ∨ ∃ n, h = some n ∧ n < 0) →
        Client.bed h = Outcome.raised (PyErr.valueError historyMsg)) ∧
    (∀ (p : String) (rec : Bool),
        ¬ strStartsWith p "local/" ∧ ¬ strStartsWith p "sdcard/" →
        Client.file_retrieve p rec = Outcome.raised (PyErr.valueError pathPrefixMsg)) ∧
    (∀ (p : String) (pn : Bool),
        ¬ strStartsWith p "local/" ∧ ¬ strStartsWith p "sdcard/" →
        Client.file_select p pn = Outcome.raised (PyErr.valueError pathPrefixMsg)) ∧
    (∀ (p fn : String) (px pyy : Int) (pp prof : Option String) (sel pn : Bool)
        (sl : String), ¬ strStartsWith p "local/" ∧ ¬ strStartsWith p "sdcard/" →
        Client.file_slice p fn px pyy pp prof sel pn sl
          = Outcome.raised (PyErr.valueError pathPrefixMsg)) ∧
    (∀ p : String, ¬ strStartsWith p "local/" ∧ ¬ strStartsWith p "sdcard/" →
        Client.file_delete p = Outcome.raised (PyErr.valueError pathPrefixMsg)) ∧
    (∀ (a : Bool) (s : Option Int),
        Client.printhead_jog Option.none Option.none Option.none a s
          = Outcome.raised (PyErr.typeError jogMsg)) ∧
    (Client.printhead_home false false false = Outcome.raised (PyErr.typeError homeMsg)) ∧
    (∀ f : ℚ, 2 < normalizedFeedrate f ∨ normalizedFeedrate f < 1/2 →
        Client.printhead_feedrate f = Outcome.raised (PyErr.valueError feedrateMsg)) ∧
    (∀ f : ℚ, 5/4 < normalizedFlowrate f ∨ normalizedFlowrate f < 3/4 →
        Client.tool_flowrate f = Outcome.raised (PyErr.valueError flowrateMsg)) ∧
    (∀ t : Py, t.typeName ∉ ["int", "list"] →
        Client.tool_target t = Outcome.raised (PyErr.valueError tempMsg)) ∧
    (∀ (c : Client) (e : PyErr) (server : HttpRequest → HttpResponse),
        run c (Outcome.raised e) server = ([], Except.error e)) := by
  refine ⟨?_, ?_, ?_, ?_, ?_, ?_, ?_, ?_, ?_, ?_, ?_, ?_, ?_, ?_, ?_, ?_⟩
  · intro oc rec loc h
    simp only [Client.files]
    rw [if_pos h]
  · intro fn file p loc h
    simp only [Client.file_upload]
    rw [if_pos h]
  · intro fn p h
    rcases h with rfl | rfl
    · rfl
    · rfl
  · intro h ex hv
    rcases hv with rfl | ⟨n, rfl, hn⟩
    · rfl
    · simp only [Client.printer]
      rw [if_pos hn]
  · intro h hv
    rcases hv with rfl | ⟨n, rfl, hn⟩
    · rfl
    · simp only [Client.tool]
      rw [if_pos hn]
  · intro h hv
    rcases hv with rfl | ⟨n, rfl, hn⟩
    · rfl
    · simp only [Client.bed]
      rw [if_pos hn]
  · intro p rec h
    simp only [Client.file_retrieve]
    rw [if_pos h]
  · intro p pn h
    simp only [Client.file_select]
    rw [if_pos h]
  · intro p fn px pyy pp prof sel pn sl h
    simp only [Client.file_slice]
    rw [if_pos h]
  · intro p h
    simp only [Client.file_delete]
    rw [if_pos h]
  · intro a s
    rfl
  · rfl
  · intro f hf
    simp only [normalizedFeedrate] at hf
    simp only [Client.printhead_feedrate]
    rw [if_pos hf]
  · intro f hf
    simp only [normalizedFlowrate] at hf
    simp only [Client.tool_flowrate]
    rw [if_pos hf]
  · intro t ht
    cases t with
    | int n => exact absurd (by simp [Py.typeName]) ht
    | list xs => exact absurd (by simp [Py.typeName]) ht
    | float q => rfl
    | bool b => rfl
    | str s => rfl
    | none => rfl
    | dict fs => rfl
  · intro c e server
    rfl

/-- Witness for C4: each validation rule fired at a concrete violating
argument. -/
theorem c4_validation_witness :
    Client.files false false "usb" = Outcome.raised (PyErr.valueError filesLocationMsg) ∧
    Client.file_upload "part.gcode" Py.none "/" "usb"
      = Outcome.raised (PyErr.valueError uploadLocationMsg) ∧
    Client.new_directory (some "") Option.none
      = Outcome.raised (PyErr.valueError foldernameMsg) ∧
    Client.printer (some (-1)) Option.none = Outcome.raised (PyErr.valueError historyMsg) ∧
    Client.tool (some (-1)) = Outcome.raised (PyErr.valueError historyMsg) ∧
    Client.bed (some (-1)) = Outcome.raised (PyErr.valueError historyMsg) ∧
    Client.file_retrieve "part.gcode" false
      = Outcome.raised (PyErr.valueError pathPrefixMsg) ∧
    Client.file_select "part.gcode" false
      = Outcome.raised (PyErr.valueError pathPrefixMsg) ∧
    Client.file_slice "part.gcode" "out.gcode" 100 100 Option.none Option.none
        false false "cura"
      = Outcome.raised (PyErr.valueError pathPrefixMsg) ∧
    Client.file_delete "part.gcode" = Outcome.raised (PyErr.valueError pathPrefixMsg) ∧
    Client.printhead_jog Option.none Option.none Option.none false Option.none
      = Outcome.raised (PyErr.typeError jogMsg) ∧
    Client.printhead_home false false false = Outcome.raised (PyErr.typeError homeMsg) ∧
    Client.printhead_feedrate 3 = Outcome.raised (PyErr.valueError feedrateMsg) ∧
    Client.tool_flowrate 2 = Outcome.raised (PyErr.valueError flowrateMsg) ∧
    Client.tool_target (Py.str "hot") = Outcome.raised (PyErr.valueError tempMsg) := by
  obtain ⟨h1, h2, h3, h4, h5, h6, h7, h8, h9, h10, h11, h12, h13, h14, h15, h16⟩ :=
    c4_validation_before_dispatch
  exact ⟨h1 false false "usb" (by decide),
    h2 "part.gcode" Py.none "/" "usb" (by decide),
    h3 (some "") Option.none (Or.inr rfl),
    h4 (some (-1)) Option.none (Or.inr ⟨-1, rfl, by decide⟩),
    h5 (some (-1)) (Or.inr ⟨-1, rfl, by decide⟩),
    h6 (some (-1)) (Or.inr ⟨-1, rfl, by decide⟩),
    h7 "part.gcode" false (by decide),
    h8 "part.gcode" false (by decide),
    h9 "part.gcode" "out.gcode" 100 100 Option.none Option.none false false "cura" (by decide),
    h10 "part.gcode" (by decide),
    h11 false Option.none,
    h12,
    h13 3 (by norm_num [normalizedFeedrate]),
    h14 2 (by norm_num [normalizedFlowrate]),
    h15 (Py.str "hot") (by decide)⟩

/-- C5 counterexample: jog called with the axis x provided as 0 passes
validation and dispatches, but the JSON body does not contain the provided
axis x at all, against the claim that every provided axis is present with
its given value. -/
theorem c5_zero_axis_counterexample :
    Client.printhead_jog (some 0) Option.none Option.none false Option.none
      = Outcome.dispatched "/api/printer/printhead" "POST"
          { json := some (Py.dict [("command", Py.str "jog")]) } ∧
    (Client.printhead_jog (some 0) Option.none Option.none false Option.none).jsonField "x"
      = Option.none :=
  ⟨rfl, rfl⟩

/-- C5 (amended): jog with all axes None raises the local TypeError; with
at least one axis provided it dispatches a POST to /api/printer/printhead
whose body carries the jog command and exactly the truthy axes — each axis
provided as a nonzero int is present with its value, and each axis that is
unprovided or provided as 0 is absent. -/
theorem c5_jog_axes :
    (∀ (a : Bool) (s : Option Int),
        Client.printhead_jog Option.none Option.none Option.none a s
          = Outcome.raised (PyErr.typeError jogMsg)) ∧
    (∀ x y z : Option Int,
        ¬ (x = Option.none ∧ y = Option.none ∧ z = Option.none) →
        ∃ fields,
          Client.printhead_jog x y z false Option.none
            = Outcome.dispatched "/api/printer/printhead" "POST"
                { json := some (Py.dict fields) } ∧
          dictGet fields "command" = some (Py.str "jog") ∧
          dictGet fields "x" = axisValue x ∧
          dictGet fields "y" = axisValue y ∧
          dictGet fields "z" = axisValue z ∧
          fields.map Prod.fst
            = "command" :: (axisKeys "x" x ++ axisKeys "y" y ++ axisKeys "z" z)) := by
  constructor
  · intro a s
    rfl
  · intro x y z h
    simp only [Client.printhead_jog]
    rw [if_neg h]
    refine ⟨_, rfl, ?_, ?_, ?_, ?_, ?_⟩
    · simp only [truthyIntEntry_none, absoluteEntry_false, List.append_nil,
        List.append_assoc, List.singleton_append, List.cons_append, List.nil_append]
      exact dictGet_cons_self "command" (Py.str "jog") _
    · simp only [truthyIntEntry_none, absoluteEntry_false, List.append_nil,
        List.append_assoc, List.singleton_append, List.cons_append, List.nil_append]
      rw [dictGet_cons_ne "command" "x" _ _ (by decide)]
      exact dictGet_truthy_self "x" x _
        (by rw [dictGet_truthy_skip "y" "x" y _ (by decide)]
            exact dictGet_truthy_ne "z" "x" z (by decide))
    · simp only [truthyIntEntry_none, absoluteEntry_false, List.append_nil,
        List.append_assoc, List.singleton_append, List.cons_append, List.nil_append]
      rw [dictGet_cons_ne "command" "y" _ _ (by decide),
        dictGet_truthy_skip "x" "y" x _ (by decide)]
      exact dictGet_truthy_self "y" y _ (dictGet_truthy_ne "z" "y" z (by decide))
    · simp only [truthyIntEntry_none, absoluteEntry_false, List.append_nil,
        List.append_assoc, List.singleton_append, List.cons_append, List.nil_append]
      rw [dictGet_cons_ne "command" "z" _ _ (by decide),
        dictGet_truthy_skip "x" "z" x _ (by decide),
        dictGet_truthy_skip "y" "z" y _ (by decide)]
      cases z with
      | none => rfl
      | some n => by_cases hn : n = 0 <;> simp [truthyIntEntry, axisValue, hn, dictGet]
    · simp only [truthyIntEntry_none, absoluteEntry_false, List.append_nil,
        List.append_assoc, List.singleton_append, List.cons_append, List.nil_append, List.map_nil, List.map_cons, List.map_append,
        truthyIntEntry_keys]

/-- Witness for the amended C5 theorem, at x = 10 with y and z unset. -/
theorem c5_jog_axes_witness :
    ¬ ((some 10 : Option Int) = Option.none ∧ (Option.none : Option Int) = Option.none ∧
        (Option.none : Option Int) = Option.none) ∧
    ∃ fields,
      Client.printhead_jog (some 10) Option.none Option.none false Option.none
        = Outcome.dispatched "/api/printer/printhead" "POST"
            { json := some (Py.dict fields) } ∧
      dictGet fields "command" = some (Py.str "jog") ∧
      dictGet fields "x" = axisValue (some 10) ∧
      dictGet fields "y" = axisValue Option.none ∧
      dictGet fields "z" = axisValue Option.none ∧
      fields.map Prod.fst = "command" :: (axisKeys "x" (some 10) ++
        axisKeys "y" Option.none ++ axisKeys "z" Option.none) :=
  ⟨by decide, c5_jog_axes.2 (some 10) Option.none Option.none (by decide)⟩

/-- C6: the feedrate factor is divided by 100 exactly when it exceeds 2.0,
the call raises exactly when the normalized factor lies outside [0.5, 2.0],
and otherwise the normalized factor is what the dispatched body carries;
factor 150 normalizes to 1.5 and dispatches, factor 3.0 raises. -/
theorem c6_feedrate_normalization (f : ℚ) :
    Client.printhead_feedrate f =
      (if 2 < normalizedFeedrate f ∨ normalizedFeedrate f < 1/2 then
        Outcome.raised (PyErr.valueError feedrateMsg)
      else
        Outcome.dispatched "/api/printer/printhead" "POST"
          { json := some (Py.dict [("command", Py.str "feedrate"),
                                   ("factor", Py.float (normalizedFeedrate f))]) }) ∧
    Client.printhead_feedrate 150
      = Outcome.dispatched "/api/printer/printhead" "POST"
          { json := some (Py.dict [("command", Py.str "feedrate"),
                                   ("factor", Py.float (3/2))]) } ∧
    Client.printhead_feedrate 3 = Outcome.raised (PyErr.valueError feedrateMsg) := by
  have hmain : ∀ g : ℚ, Client.printhead_feedrate g =
      (if 2 < normalizedFeedrate g ∨ normalizedFeedrate g < 1/2 then
        Outcome.raised (PyErr.valueError feedrateMsg)
      else
        Outcome.dispatched "/api/printer/printhead" "POST"
          { json := some (Py.dict [("command", Py.str "feedrate"),
                                   ("factor", Py.float (normalizedFeedrate g))]) }) :=
    fun g => rfl
  refine ⟨hmain f, ?_, ?_⟩
  · rw [hmain 150, show normalizedFeedrate 150 = 3/2 from by norm_num [normalizedFeedrate],
      if_neg (by norm_num)]
  · rw [hmain 3, show normalizedFeedrate 3 = 3/100 from by norm_num [normalizedFeedrate],
      if_pos (by norm_num)]

/-- C7: tool_target with an int dispatches the target body with the single
key tool; with a list it enumerates index N into the key toolN; any other
runtime type raises the ValueError. -/
theorem c7_tool_target :
    (∀ n : Int, Client.tool_target (Py.int n)
        = Outcome.dispatched "/api/printer/tool" "POST"
            { json := some (Py.dict [("command", Py.str "target"),
                ("targets", Py.dict [("tool", Py.int n)])]) }) ∧
    Client.tool_target (Py.int 200)
      = Outcome.dispatched "/api/printer/tool" "POST"
          { json := some (Py.dict [("command", Py.str "target"),
              ("targets", Py.dict [("tool", Py.int 200)])]) } ∧
    (∀ xs : List Py, Client.tool_target (Py.list xs)
        = Outcome.dispatched "/api/printer/tool" "POST"
            { json := some (Py.dict [("command", Py.str "target"),
                ("targets",
                 Py.dict (xs.enum.map (fun p => ("tool" ++ toString p.1, p.2))))]) }) ∧
    Client.tool_target (Py.list [Py.int 200, Py.int 210])
      = Outcome.dispatched "/api/printer/tool" "POST"
          { json := some (Py.dict [("command", Py.str "target"),
              ("targets", Py.dict [("tool0", Py.int 200), ("tool1", Py.int 210)])]) } ∧
    (∀ t : Py, t.typeName ∉ ["int", "list"] →
        Client.tool_target t = Outcome.raised (PyErr.valueError tempMsg)) := by
  refine ⟨fun n => rfl, rfl, fun xs => rfl, rfl, ?_⟩
  intro t ht
  cases t with
  | int n => exact absurd (by simp [Py.typeName]) ht
  | list xs => exact absurd (by simp [Py.typeName]) ht
  | float q => rfl
  | bool b => rfl
  | str s => rfl
  | none => rfl
  | dict fs => rfl

/-- Witness for the C7 type-validation branch, at a string argument. -/
theorem c7_tool_target_witness :
    (Py.str "warm").typeName ∉ ["int", "list"] ∧
    Client.tool_target (Py.str "warm") = Outcome.raised (PyErr.valueError tempMsg) :=
  ⟨by decide, c7_tool_target.2.2.2.2 (Py.str "warm") (by decide)⟩

end Octoprint
